import Mathlib

/-!
Shallow embedding of the GluonBootcamp distributed-training notebooks.

The repository contains two revisions of the same sharding/upload notebook
(`part_000` and `part_001`).  Both define

  save_and_upload(X, y, target_folder, i)   and
  split_and_upload(X, y, k, target_folder)

over MXNet ndarrays.  Here an ndarray row sequence is a `List α` (rows of the
feature matrix X) or a `List β` (entries of the label vector y); Python slicing
`X[a:b]`, `range(start, stop, step)`, integer floor division, and the failure
behaviour of `assert`, of division by zero, and of `range` with step 0 are
embedded explicitly.  The two side effects that matter to the claims — the
local `mx.nd.save` write and the `s3.upload_file` transfer — are recorded in an
effect trace in program order (`print` calls produce no modelled effect).
A run either returns its full effect trace and no error, or the trace emitted
up to the failure point together with the Python error kind that was raised.
-/

/-- Error kinds the Python code in the notebooks can raise on the modelled
paths: `assert` failure, integer division by zero (`n // k` with `k = 0`),
and `range(0, n+1, 0)` whose step argument must not be zero. -/
inductive PyError where
  | assertionError
  | zeroDivisionError
  | valueError
  deriving DecidableEq, Repr

/-- Value stored under one key of the dictionary passed to `mx.nd.save`:
either the feature-matrix slice or the label-vector slice. -/
inductive NDSaved (α β : Type) where
  | feat : List α → NDSaved α β
  | lab : List β → NDSaved α β
  deriving DecidableEq, Repr

/-- Side effects of the notebook code that the claims are about, in program
order: `writeLocal path dict` is `mx.nd.save(path, dict)`, and
`uploadFile localPath bucket key` is `s3.upload_file(localPath, bucket, key)`. -/
inductive Effect (α β : Type) where
  | writeLocal : String → List (String × NDSaved α β) → Effect α β
  | uploadFile : String → String → String → Effect α β
  deriving DecidableEq, Repr

/-- Python slice `xs[a:b]` for natural bounds: elements at positions
`a, a+1, ..., b-1`, clamped to the list like Python clamps to `len(xs)`,
and empty when `b ≤ a`. -/
def pySlice {α : Type} (xs : List α) (a b : Nat) : List α :=
  (xs.drop a).take (b - a)

/-- Python `list(range(start, stop, step))` for natural arguments:
`none` models the `ValueError` Python raises when `step = 0`; otherwise the
elements are `start + i * step` for `i < ⌈(stop - start) / step⌉`
(natural subtraction makes the count 0 when `stop ≤ start`). -/
def rangeStep (start stop step : Nat) : Option (List Nat) :=
  if step = 0 then none
  else some ((List.range ((stop - start + step - 1) / step)).map (fun i => start + i * step))

/-- The notebook constant `bucket_name`. -/
def bucket_name : String := "eduthie-sagemaker-1"

/-- The notebook constant named prefix in the source; it already ends in a
slash — the comment in `part_001` says to include the trailing slash. -/
def prefixStr : String := "distributed_training_gluon_lab/"

/-- The notebook constant `local_dir`. -/
def local_dir : String := "/tmp"

namespace Part000

/-- Embedding of `save_and_upload` from the first notebook revision,
`src/unnamed/part_000`: saves a dictionary mapping key "X" to the matrix X and
key "y" to the vector y at the local path joined from `local_dir` and the
decimal of `i`, then uploads that file to the key built from the prefix, an
inserted slash, the target folder, a slash, and the file name — the slash
after the prefix is inserted even though the prefix already ends in a slash. -/
def save_and_upload {α β : Type} (X : List α) (y : List β)
    (target_folder : String) (i : Nat) : List (Effect α β) :=
  let file_name := Nat.repr i
  let local_path := local_dir ++ "/" ++ file_name
  let upload_filename := prefixStr ++ "/" ++ target_folder ++ "/" ++ file_name
  [Effect.writeLocal local_path [("X", NDSaved.feat X), ("y", NDSaved.lab y)],
   Effect.uploadFile local_path bucket_name upload_filename]

/-- Embedding of `split_and_upload` from `src/unnamed/part_000`:
`n = len(X)`; `assert (n//k)*k == n` (evaluating `n//k` raises
`ZeroDivisionError` when `k = 0`, before the assertion itself);
`idx = list(range(0, n+1, n//k))` (raises `ValueError` when the step
`n//k` is zero, i.e. when `n = 0`); the shards are the slices
`X[idx[i]:idx[i+1]]` and `y[idx[i]:idx[i+1]]` for `i in range(k)`, and the
loop `for X,y,i in zip(X_shards, y_shards, range(k))` calls
`save_and_upload` on each triple in order.  The result is the emitted
effect trace together with the error raised, if any; on every error path
the trace emitted so far is empty. -/
def split_and_upload {α β : Type} (X : List α) (y : List β) (k : Nat)
    (target_folder : String) : List (Effect α β) × Option PyError :=
  let n := X.length
  if k = 0 then ([], some PyError.zeroDivisionError)
  else if (n / k) * k = n then
    match rangeStep 0 (n + 1) (n / k) with
    | none => ([], some PyError.valueError)
    | some idx =>
      let X_shards := (List.range k).map (fun i => pySlice X (idx.getD i 0) (idx.getD (i + 1) 0))
      let y_shards := (List.range k).map (fun i => pySlice y (idx.getD i 0) (idx.getD (i + 1) 0))
      (((X_shards.zip y_shards).zip (List.range k)).flatMap
        (fun p => save_and_upload p.1.1 p.1.2 target_folder p.2), none)
  else ([], some PyError.assertionError)

end Part000

namespace Part001

/-- Embedding of `save_and_upload` from the revised notebook,
`src/unnamed/part_001`: identical to the `part_000` version except for the
upload key, which is built from the prefix, the target folder, a slash, and
the file name — no extra separator is inserted after the prefix, which
already ends in a slash. -/
def save_and_upload {α β : Type} (X : List α) (y : List β)
    (target_folder : String) (i : Nat) : List (Effect α β) :=
  let file_name := Nat.repr i
  let local_path := local_dir ++ "/" ++ file_name
  let upload_filename := prefixStr ++ target_folder ++ "/" ++ file_name
  [Effect.writeLocal local_path [("X", NDSaved.feat X), ("y", NDSaved.lab y)],
   Effect.uploadFile local_path bucket_name upload_filename]

/-- Embedding of `split_and_upload` from `src/unnamed/part_001`; the body is
line for line the body of the `part_000` revision (the loop variables are
named `Xi, yi` instead of shadowing `X, y`, which changes nothing), only the
`save_and_upload` it calls differs in the upload key it builds. -/
def split_and_upload {α β : Type} (X : List α) (y : List β) (k : Nat)
    (target_folder : String) : List (Effect α β) × Option PyError :=
  let n := X.length
  if k = 0 then ([], some PyError.zeroDivisionError)
  else if (n / k) * k = n then
    match rangeStep 0 (n + 1) (n / k) with
    | none => ([], some PyError.valueError)
    | some idx =>
      let X_shards := (List.range k).map (fun i => pySlice X (idx.getD i 0) (idx.getD (i + 1) 0))
      let y_shards := (List.range k).map (fun i => pySlice y (idx.getD i 0) (idx.getD (i + 1) 0))
      (((X_shards.zip y_shards).zip (List.range k)).flatMap
        (fun p => save_and_upload p.1.1 p.1.2 target_folder p.2), none)
  else ([], some PyError.assertionError)

end Part001

/-- Local paths of the `mx.nd.save` writes in a trace, in order. -/
def writePaths {α β : Type} (effs : List (Effect α β)) : List String :=
  effs.filterMap (fun e => match e with
    | Effect.writeLocal p _ => some p
    | _ => none)

/-- Dictionaries passed to `mx.nd.save` in a trace, in order: the contents of
the serialized shard artifacts. -/
def writeDicts {α β : Type} (effs : List (Effect α β)) :
    List (List (String × NDSaved α β)) :=
  effs.filterMap (fun e => match e with
    | Effect.writeLocal _ d => some d
    | _ => none)

/-- Remote object-store keys of the uploads in a trace, in order. -/
def uploadKeys {α β : Type} (effs : List (Effect α β)) : List String :=
  effs.filterMap (fun e => match e with
    | Effect.uploadFile _ _ key => some key
    | _ => none)

/-- The `(X-slice, y-slice)` pairs recorded by the local writes of a trace, in
order: the shard data a run emits. -/
def emittedShards {α β : Type} (effs : List (Effect α β)) : List (List α × List β) :=
  effs.filterMap (fun e => match e with
    | Effect.writeLocal _ [(_, NDSaved.feat Xi), (_, NDSaved.lab yi)] => some (Xi, yi)
    | _ => none)

/-- Erase the remote destination key of every upload in a trace, leaving all
other data intact; two traces equal after `eraseKeys` differ at most in the
remote keys they address. -/
def eraseKeys {α β : Type} (effs : List (Effect α β)) : List (Effect α β) :=
  effs.map (fun e => match e with
    | Effect.uploadFile lp b _ => Effect.uploadFile lp b ""
    | w => w)

/-- Key layout stated by the spec, as its own definition for comparison
against the code: prefix body, folder name, and decimal shard index joined by
single `/` separators. -/
def specKey (target_folder : String) (i : Nat) : String :=
  "distributed_training_gluon_lab" ++ "/" ++ target_folder ++ "/" ++ Nat.repr i

/-! Helper lemmas about the embedded Python primitives. -/

/-- Reading position `i` of a mapped range with a default returns the mapped
value whenever `i` is in range. -/
theorem getD_range_map {γ : Type} (f : Nat → γ) (m i : Nat) (d : γ) (h : i < m) :
    ((List.range m).map f).getD i d = f i := by
  simp [List.getD_eq_getElem?_getD, List.getElem?_map, List.getElem?_range, h]

/-- For a positive step `s`, the boundary list `range(0, k*s + 1, s)` built by
the notebooks is exactly the `k + 1` multiples of `s` from `0` to `k*s`. -/
theorem rangeStep_pos (s k : Nat) (hs : s ≠ 0) :
    rangeStep 0 (k * s + 1) s = some ((List.range (k + 1)).map (fun i => i * s)) := by
  unfold rangeStep
  rw [if_neg hs]
  congr 1
  have h1 : k * s + 1 - 0 + s - 1 = k * s + s := by
    have h2 : ∀ m : Nat, m + 1 - 0 + s - 1 = m + s := fun m => by omega
    exact h2 (k * s)
  rw [h1, show k * s + s = (k + 1) * s from (Nat.succ_mul k s).symm,
    Nat.mul_div_cancel _ (Nat.pos_of_ne_zero hs)]
  exact List.map_congr_left (fun a _ => Nat.zero_add (a * s))

/-- A slice between consecutive multiples of `s` is a take of length `s`
after a drop. -/
theorem pySlice_consecutive {α : Type} (xs : List α) (s i : Nat) :
    pySlice xs (i * s) ((i + 1) * s) = (xs.drop (i * s)).take s := by
  unfold pySlice
  rw [Nat.succ_mul, Nat.add_sub_cancel_left]

/-- Each of the `k` consecutive width-`s` slices of a list of length `k * s`
has length exactly `s`. -/
theorem pySlice_chunk_length {α : Type} (xs : List α) (s k i : Nat)
    (h : xs.length = k * s) (hi : i < k) :
    (pySlice xs (i * s) ((i + 1) * s)).length = s := by
  rw [pySlice_consecutive, List.length_take, List.length_drop, h]
  have hle : s ≤ k * s - i * s := by
    rw [← Nat.sub_mul]
    have h1 : 1 ≤ k - i := by omega
    calc s = 1 * s := (Nat.one_mul s).symm
    _ ≤ (k - i) * s := Nat.mul_le_mul_right s h1
  omega

/-- Concatenating the `k` consecutive width-`s` slices of a list of length
`k * s` rebuilds the list. -/
theorem pySlice_chunks_flatten {α : Type} (s k : Nat) :
    ∀ xs : List α, xs.length = k * s →
      ((List.range k).map (fun i => pySlice xs (i * s) ((i + 1) * s))).flatten = xs := by
  induction k with
  | zero =>
    intro xs h
    rw [Nat.zero_mul] at h
    rw [List.length_eq_zero] at h
    simp [h]
  | succ m ih =>
    intro xs h
    rw [List.range_succ_eq_map, List.map_cons, List.map_map, List.flatten_cons]
    have hhead : pySlice xs (0 * s) ((0 + 1) * s) = xs.take s := by
      rw [pySlice_consecutive, Nat.zero_mul, List.drop_zero]
    have htail : (List.range m).map ((fun i => pySlice xs (i * s) ((i + 1) * s)) ∘ Nat.succ) =
        (List.range m).map (fun i => pySlice (xs.drop s) (i * s) ((i + 1) * s)) := by
      apply List.map_congr_left
      intro a _
      show pySlice xs ((a + 1) * s) ((a + 1 + 1) * s) = pySlice (xs.drop s) (a * s) ((a + 1) * s)
      rw [pySlice_consecutive, pySlice_consecutive, List.drop_drop]
      rw [show s + a * s = (a + 1) * s from by rw [Nat.succ_mul, Nat.add_comm]]
    have hlen : (xs.drop s).length = m * s := by
      rw [List.length_drop, h, Nat.succ_mul]
      omega
    rw [hhead, htail, ih (xs.drop s) hlen, List.take_append_drop]

/-- Zipping a mapped list with the list itself pairs each element with its
image. -/
theorem map_zip_self {γ δ : Type} (h : γ → δ) : ∀ l : List γ,
    (l.map h).zip l = l.map (fun a => (h a, a))
  | [] => rfl
  | a :: t => by
    rw [List.map_cons, List.zip_cons_cons, map_zip_self h t, List.map_cons]

/-- Boundary-list fact shared by both notebook revisions: under a positive
shard count that divides a positive length, the step is positive and the
boundary list is the `k + 1` multiples of the shard width. -/
theorem split_idx_eq (n k : Nat) (hdvd : (n / k) * k = n)
    (hn : n ≠ 0) :
    rangeStep 0 (n + 1) (n / k) =
      some ((List.range (k + 1)).map (fun i => i * (n / k))) := by
  have hs : n / k ≠ 0 := by
    intro h0
    rw [h0, Nat.zero_mul] at hdvd
    exact hn hdvd.symm
  have h := rangeStep_pos (n / k) k hs
  rw [Nat.mul_comm k (n / k), hdvd] at h
  exact h

/-- On the success path — positive shard count that divides a positive
length — `split_and_upload` of the revised notebook raises nothing and calls
`save_and_upload` once per shard index, in index order, on the consecutive
width `len(X) / k` slices of `X` and `y`. -/
theorem split_ok_Part001 {α β : Type} (X : List α) (y : List β) (k : Nat)
    (f : String) (hk : k ≠ 0) (hdvd : (X.length / k) * k = X.length)
    (hn : X.length ≠ 0) :
    Part001.split_and_upload X y k f =
      ((List.range k).flatMap (fun i =>
        Part001.save_and_upload
          (pySlice X (i * (X.length / k)) ((i + 1) * (X.length / k)))
          (pySlice y (i * (X.length / k)) ((i + 1) * (X.length / k))) f i), none) := by
  have hidx : ∀ (Z : Type) (zs : List Z), ∀ i ∈ List.range k,
      pySlice zs (((List.range (k + 1)).map (fun j => j * (X.length / k))).getD i 0)
        (((List.range (k + 1)).map (fun j => j * (X.length / k))).getD (i + 1) 0) =
      pySlice zs (i * (X.length / k)) ((i + 1) * (X.length / k)) := by
    intro Z zs i hi
    have hik : i < k := List.mem_range.mp hi
    rw [getD_range_map _ _ _ _ (by omega), getD_range_map _ _ _ _ (by omega)]
  simp only [Part001.split_and_upload]
  rw [if_neg hk, if_pos hdvd, split_idx_eq X.length k hdvd hn]
  dsimp only
  rw [List.map_congr_left (hidx α X), List.map_congr_left (hidx β y),
    List.zip_map', map_zip_self, List.flatMap_map]

/-- Success-path normal form of `split_and_upload` from the first notebook
revision; identical in shape to the `part_001` one. -/
theorem split_ok_Part000 {α β : Type} (X : List α) (y : List β) (k : Nat)
    (f : String) (hk : k ≠ 0) (hdvd : (X.length / k) * k = X.length)
    (hn : X.length ≠ 0) :
    Part000.split_and_upload X y k f =
      ((List.range k).flatMap (fun i =>
        Part000.save_and_upload
          (pySlice X (i * (X.length / k)) ((i + 1) * (X.length / k)))
          (pySlice y (i * (X.length / k)) ((i + 1) * (X.length / k))) f i), none) := by
  have hidx : ∀ (Z : Type) (zs : List Z), ∀ i ∈ List.range k,
      pySlice zs (((List.range (k + 1)).map (fun j => j * (X.length / k))).getD i 0)
        (((List.range (k + 1)).map (fun j => j * (X.length / k))).getD (i + 1) 0) =
      pySlice zs (i * (X.length / k)) ((i + 1) * (X.length / k)) := by
    intro Z zs i hi
    have hik : i < k := List.mem_range.mp hi
    rw [getD_range_map _ _ _ _ (by omega), getD_range_map _ _ _ _ (by omega)]
  simp only [Part000.split_and_upload]
  rw [if_neg hk, if_pos hdvd, split_idx_eq X.length k hdvd hn]
  dsimp only
  rw [List.map_congr_left (hidx α X), List.map_congr_left (hidx β y),
    List.zip_map', map_zip_self, List.flatMap_map]

/-! Extraction of the claim-relevant data from effect traces. -/

/-- The writes of one `save_and_upload` call of the revised notebook. -/
theorem writePaths_save_Part001 {α β : Type} (X : List α) (y : List β)
    (f : String) (i : Nat) :
    writePaths (Part001.save_and_upload X y f i) = [local_dir ++ "/" ++ Nat.repr i] := rfl

/-- The artifact dictionary of one `save_and_upload` call of the revised
notebook. -/
theorem writeDicts_save_Part001 {α β : Type} (X : List α) (y : List β)
    (f : String) (i : Nat) :
    writeDicts (Part001.save_and_upload X y f i) =
      [[("X", NDSaved.feat X), ("y", NDSaved.lab y)]] := rfl

/-- The shard pair recorded by one `save_and_upload` call of the revised
notebook. -/
theorem emittedShards_save_Part001 {α β : Type} (X : List α) (y : List β)
    (f : String) (i : Nat) :
    emittedShards (Part001.save_and_upload X y f i) = [(X, y)] := rfl

/-- The upload key of one `save_and_upload` call of the revised notebook. -/
theorem uploadKeys_save_Part001 {α β : Type} (X : List α) (y : List β)
    (f : String) (i : Nat) :
    uploadKeys (Part001.save_and_upload X y f i) =
      [prefixStr ++ f ++ "/" ++ Nat.repr i] := rfl

/-- `emittedShards` splits over concatenation of traces. -/
theorem emittedShards_append {α β : Type} (xs ys : List (Effect α β)) :
    emittedShards (xs ++ ys) = emittedShards xs ++ emittedShards ys :=
  List.filterMap_append xs ys _

/-- `writePaths` splits over concatenation of traces. -/
theorem writePaths_append {α β : Type} (xs ys : List (Effect α β)) :
    writePaths (xs ++ ys) = writePaths xs ++ writePaths ys :=
  List.filterMap_append xs ys _

/-- `writeDicts` splits over concatenation of traces. -/
theorem writeDicts_append {α β : Type} (xs ys : List (Effect α β)) :
    writeDicts (xs ++ ys) = writeDicts xs ++ writeDicts ys :=
  List.filterMap_append xs ys _

/-- `uploadKeys` splits over concatenation of traces. -/
theorem uploadKeys_append {α β : Type} (xs ys : List (Effect α β)) :
    uploadKeys (xs ++ ys) = uploadKeys xs ++ uploadKeys ys :=
  List.filterMap_append xs ys _

/-- Shard pairs recorded by a loop of `save_and_upload` calls of the revised
notebook: one pair per index, in loop order. -/
theorem emittedShards_loop_Part001 {α β : Type} (A : Nat → List α) (B : Nat → List β)
    (f : String) : ∀ l : List Nat,
    emittedShards (l.flatMap (fun i => Part001.save_and_upload (A i) (B i) f i)) =
      l.map (fun i => (A i, B i))
  | [] => rfl
  | a :: t => by
    rw [List.flatMap_cons, emittedShards_append, emittedShards_save_Part001,
      emittedShards_loop_Part001 A B f t, List.map_cons, List.singleton_append]

/-- Local write paths of a loop of `save_and_upload` calls of the revised
notebook: one per index, in loop order. -/
theorem writePaths_loop_Part001 {α β : Type} (A : Nat → List α) (B : Nat → List β)
    (f : String) : ∀ l : List Nat,
    writePaths (l.flatMap (fun i => Part001.save_and_upload (A i) (B i) f i)) =
      l.map (fun i => local_dir ++ "/" ++ Nat.repr i)
  | [] => rfl
  | a :: t => by
    rw [List.flatMap_cons, writePaths_append, writePaths_save_Part001,
      writePaths_loop_Part001 A B f t, List.map_cons, List.singleton_append]

/-- Artifact dictionaries of a loop of `save_and_upload` calls of the revised
notebook: one two-entry dictionary per index, in loop order. -/
theorem writeDicts_loop_Part001 {α β : Type} (A : Nat → List α) (B : Nat → List β)
    (f : String) : ∀ l : List Nat,
    writeDicts (l.flatMap (fun i => Part001.save_and_upload (A i) (B i) f i)) =
      l.map (fun i => [("X", NDSaved.feat (A i)), ("y", NDSaved.lab (B i))])
  | [] => rfl
  | a :: t => by
    rw [List.flatMap_cons, writeDicts_append, writeDicts_save_Part001,
      writeDicts_loop_Part001 A B f t, List.map_cons, List.singleton_append]

/-- A loop emitting two effects per element produces a trace twice as long as
the loop list. -/
theorem flatMap_pairs_length {E : Type} (w u : Nat → E) : ∀ l : List Nat,
    (l.flatMap (fun i => [w i, u i])).length = 2 * l.length
  | [] => rfl
  | a :: t => by
    rw [List.flatMap_cons, List.length_append, flatMap_pairs_length w u t,
      List.length_cons, List.length_cons, List.length_nil, List.length_cons]
    omega

/-- In the trace of a loop over `range k` that emits the block `[w i, u i]`
for each `i`, the first effect of block `i` sits at position `2*i` and the
second at position `2*i + 1`. -/
theorem flatMap_pairs_getElem {E : Type} (w u : Nat → E) :
    ∀ k i : Nat, i < k →
    ((List.range k).flatMap (fun j => [w j, u j]))[2 * i]? = some (w i) ∧
    ((List.range k).flatMap (fun j => [w j, u j]))[2 * i + 1]? = some (u i) := by
  intro k
  induction k with
  | zero => intro i hi; omega
  | succ m ih =>
    intro i hi
    rw [List.range_succ, List.flatMap_append]
    have hlen : ((List.range m).flatMap (fun j => [w j, u j])).length = 2 * m := by
      rw [flatMap_pairs_length, List.length_range]
    by_cases hc : i < m
    · have h1 := (ih i hc).1
      have h2 := (ih i hc).2
      constructor
      · rw [List.getElem?_append, if_pos (by omega : 2 * i < _), h1]
      · rw [List.getElem?_append, if_pos (by omega : 2 * i + 1 < _), h2]
    · have him : i = m := by omega
      subst him
      constructor
      · rw [List.getElem?_append_right (by rw [hlen] : _ ≤ 2 * i), hlen,
          Nat.sub_self]
        rfl
      · rw [List.getElem?_append_right (by rw [hlen]; omega), hlen,
          show 2 * i + 1 - 2 * i = 1 from by omega]
        rfl

/-- The two notebook revisions of `split_and_upload` agree on every input up
to the remote destination keys: same error behaviour, and the same effect
trace once every upload key is erased. -/
theorem parts_agree {α β : Type} (X : List α) (y : List β) (k : Nat) (f : String) :
    eraseKeys (Part000.split_and_upload X y k f).1 =
      eraseKeys (Part001.split_and_upload X y k f).1 ∧
    (Part000.split_and_upload X y k f).2 = (Part001.split_and_upload X y k f).2 := by
  simp only [Part000.split_and_upload, Part001.split_and_upload]
  by_cases hk : k = 0
  · rw [if_pos hk, if_pos hk]
    exact ⟨rfl, rfl⟩
  · rw [if_neg hk, if_neg hk]
    by_cases hdvd : (X.length / k) * k = X.length
    · rw [if_pos hdvd, if_pos hdvd]
      cases hrs : rangeStep 0 (X.length + 1) (X.length / k) with
      | none => exact ⟨rfl, rfl⟩
      | some idx =>
        dsimp only
        refine ⟨?_, rfl⟩
        simp only [eraseKeys]
        rw [List.map_flatMap, List.map_flatMap]
        rfl
    · rw [if_neg hdvd, if_neg hdvd]
      exact ⟨rfl, rfl⟩

/-! Training entry point, modelled from the spec.

Both notebooks import `train` from `multiple_regression.py`; that module is
not among the provided sources — only its callers and their captured output
are.  The definitions below are therefore modelled from the specification
text and marked as such. -/

/-- Modelled from the spec: the synchronization modes the missing
`multiple_regression.py` selects between — the local single-device kvstore
(the captured single-host output prints `kvstore device`) and the distributed
device-sync kvstore named in the notebook text. -/
inductive Kvstore where
  | device
  | dist_device_sync
  deriving DecidableEq, Repr

/-- Whether a synchronization mode is a distributed one. -/
def Kvstore.isDistributed : Kvstore → Bool
  | Kvstore.device => false
  | Kvstore.dist_device_sync => true

/-- Modelled from the spec: the hyperparameter configuration recognized by the
training entry point — batch size, epoch count, learning rate. -/
structure Hyperparameters where
  batch_size : Nat
  epochs : Nat
  learning_rate : Rat
  deriving DecidableEq, Repr

/-- Modelled from the spec: the observable outcome of one run of the training
entry point — the synchronization mode selected for the optimizer and the
reported per-epoch losses. -/
structure TrainResult where
  kvstore : Kvstore
  epochLosses : List Rat
  deriving DecidableEq, Repr

/-- Modelled from the spec: synchronization-mode selection of the missing
`multiple_regression.py` — if more than one host identifier is present, a
distributed gradient-synchronization mode is selected for the optimizer;
otherwise the local single-device mode is used. -/
def kvstoreFor (hosts : List String) : Kvstore :=
  if 1 < hosts.length then Kvstore.dist_device_sync else Kvstore.device

/-- Modelled from the spec: the loss one epoch reports — one pass over all
locally available batches, reporting the average of the per-batch
mean-squared-error losses (batch losses are abstracted as rationals). -/
def epochLoss (batchLosses : List Rat) : Rat :=
  (batchLosses.foldl (· + ·) 0) / batchLosses.length

/-- Modelled from the spec: the training entry point
`train(hyperparameters, channel_input_dirs, num_gpus, hosts, current_host)`
of the missing `multiple_regression.py`.  It selects the synchronization mode
from the host list and runs exactly `epochs` epochs, each reporting one loss
over the locally available batches (supplied here as `batchLosses`, standing
for the data loaded from the train channel directory); the epoch count is the
sole termination condition. -/
def train (hp : Hyperparameters) (channel_input_dirs : List (String × String))
    (num_gpus : Nat) (hosts : List String) (current_host : String)
    (batchLosses : List Rat) : TrainResult :=
  { kvstore := kvstoreFor hosts
    epochLosses := (List.range hp.epochs).map (fun _ => epochLoss batchLosses) }

/-! Claim theorems. -/

/-- C1, counterexample: the claim quantifies over every k ≥ 1 with len(X)
exactly divisible by k, which admits the empty dataset (1 divides 0).  There
the assertion passes but the boundary-list construction is range(0, 1, 0),
whose zero step raises a ValueError, so the routine emits no shard at all
instead of exactly k = 1 shards. -/
theorem C1_counterexample :
    Part001.split_and_upload ([] : List Nat) ([] : List Nat) 1 "train" =
      ([], some PyError.valueError) ∧
    emittedShards (Part001.split_and_upload ([] : List Nat) ([] : List Nat) 1 "train").1 =
      [] ∧
    (1 : Nat) ∣ ([] : List Nat).length :=
  ⟨rfl, rfl, ⟨0, rfl⟩⟩

/-- C1 (amended: the dataset must also be nonempty): for every X and y of the
same length and every k ≥ 1 dividing len(X) ≥ 1, `split_and_upload` of the
revised notebook succeeds and emits exactly k shards; shard i is the pair of
contiguous width len(X)/k slices of X and y starting at row i·(len(X)/k) —
so the shards are pairwise disjoint, equal-sized, in original row order — and
concatenating the X-slices and the y-slices in shard-index order rebuilds X
and y exactly; for len(X) = 900000 and k = 5 each shard has 180000 rows. -/
theorem C1_shards_partition {α β : Type} (X : List α) (y : List β) (k : Nat)
    (f : String) (hk : 1 ≤ k) (hdvd : k ∣ X.length) (hy : y.length = X.length)
    (hn : 1 ≤ X.length) :
    (Part001.split_and_upload X y k f).2 = none ∧
    (emittedShards (Part001.split_and_upload X y k f).1).length = k ∧
    (∀ p ∈ emittedShards (Part001.split_and_upload X y k f).1,
      p.1.length = X.length / k ∧ p.2.length = X.length / k) ∧
    ((emittedShards (Part001.split_and_upload X y k f).1).map Prod.fst).flatten = X ∧
    ((emittedShards (Part001.split_and_upload X y k f).1).map Prod.snd).flatten = y ∧
    (∀ i, i < k →
      (emittedShards (Part001.split_and_upload X y k f).1).getD i ([], []) =
        (pySlice X (i * (X.length / k)) ((i + 1) * (X.length / k)),
         pySlice y (i * (X.length / k)) ((i + 1) * (X.length / k)))) ∧
    (X.length = 900000 → k = 5 →
      ∀ p ∈ emittedShards (Part001.split_and_upload X y k f).1,
        p.1.length = 180000) := by
  have hk0 : k ≠ 0 := by omega
  have hn0 : X.length ≠ 0 := by omega
  have hdvd2 : (X.length / k) * k = X.length := Nat.div_mul_cancel hdvd
  have hX : X.length = k * (X.length / k) := by
    rw [Nat.mul_comm]; exact hdvd2.symm
  have hY : y.length = k * (X.length / k) := by rw [hy]; exact hX
  rw [split_ok_Part001 X y k f hk0 hdvd2 hn0]
  dsimp only
  rw [emittedShards_loop_Part001]
  have hmem : ∀ p ∈ (List.range k).map (fun i =>
      (pySlice X (i * (X.length / k)) ((i + 1) * (X.length / k)),
       pySlice y (i * (X.length / k)) ((i + 1) * (X.length / k)))),
      p.1.length = X.length / k ∧ p.2.length = X.length / k := by
    intro p hp
    rcases List.mem_map.mp hp with ⟨i, hi, hpi⟩
    have hik : i < k := List.mem_range.mp hi
    rw [← hpi]
    exact ⟨pySlice_chunk_length X (X.length / k) k i hX hik,
      pySlice_chunk_length y (X.length / k) k i hY hik⟩
  refine ⟨rfl, ?_, hmem, ?_, ?_, ?_, ?_⟩
  · rw [List.length_map, List.length_range]
  · rw [List.map_map]
    show ((List.range k).map (fun i =>
      pySlice X (i * (X.length / k)) ((i + 1) * (X.length / k)))).flatten = X
    exact pySlice_chunks_flatten (X.length / k) k X hX
  · rw [List.map_map]
    show ((List.range k).map (fun i =>
      pySlice y (i * (X.length / k)) ((i + 1) * (X.length / k)))).flatten = y
    exact pySlice_chunks_flatten (X.length / k) k y hY
  · intro i hik
    rw [getD_range_map _ _ _ _ hik]
  · intro h9 h5 p hp
    rw [(hmem p hp).1, h9, h5]

/-- C1, witness: the amended theorem instantiated on a six-row dataset split
into three shards. -/
theorem C1_shards_partition_witness :
    (1 ≤ 3 ∧ (3 : Nat) ∣ ([0, 1, 2, 3, 4, 5] : List Nat).length ∧
      ([10, 11, 12, 13, 14, 15] : List Nat).length = ([0, 1, 2, 3, 4, 5] : List Nat).length ∧
      1 ≤ ([0, 1, 2, 3, 4, 5] : List Nat).length) ∧
    ((Part001.split_and_upload ([0, 1, 2, 3, 4, 5] : List Nat)
        ([10, 11, 12, 13, 14, 15] : List Nat) 3 "train").2 = none ∧
     (emittedShards (Part001.split_and_upload ([0, 1, 2, 3, 4, 5] : List Nat)
        ([10, 11, 12, 13, 14, 15] : List Nat) 3 "train").1).length = 3 ∧
     (∀ p ∈ emittedShards (Part001.split_and_upload ([0, 1, 2, 3, 4, 5] : List Nat)
        ([10, 11, 12, 13, 14, 15] : List Nat) 3 "train").1,
        p.1.length = ([0, 1, 2, 3, 4, 5] : List Nat).length / 3 ∧
        p.2.length = ([0, 1, 2, 3, 4, 5] : List Nat).length / 3) ∧
     ((emittedShards (Part001.split_and_upload ([0, 1, 2, 3, 4, 5] : List Nat)
        ([10, 11, 12, 13, 14, 15] : List Nat) 3 "train").1).map Prod.fst).flatten =
        ([0, 1, 2, 3, 4, 5] : List Nat) ∧
     ((emittedShards (Part001.split_and_upload ([0, 1, 2, 3, 4, 5] : List Nat)
        ([10, 11, 12, 13, 14, 15] : List Nat) 3 "train").1).map Prod.snd).flatten =
        ([10, 11, 12, 13, 14, 15] : List Nat) ∧
     (∀ i, i < 3 →
        (emittedShards (Part001.split_and_upload ([0, 1, 2, 3, 4, 5] : List Nat)
          ([10, 11, 12, 13, 14, 15] : List Nat) 3 "train").1).getD i ([], []) =
          (pySlice ([0, 1, 2, 3, 4, 5] : List Nat)
            (i * (([0, 1, 2, 3, 4, 5] : List Nat).length / 3))
            ((i + 1) * (([0, 1, 2, 3, 4, 5] : List Nat).length / 3)),
           pySlice ([10, 11, 12, 13, 14, 15] : List Nat)
            (i * (([0, 1, 2, 3, 4, 5] : List Nat).length / 3))
            ((i + 1) * (([0, 1, 2, 3, 4, 5] : List Nat).length / 3)))) ∧
     (([0, 1, 2, 3, 4, 5] : List Nat).length = 900000 → 3 = 5 →
        ∀ p ∈ emittedShards (Part001.split_and_upload ([0, 1, 2, 3, 4, 5] : List Nat)
          ([10, 11, 12, 13, 14, 15] : List Nat) 3 "train").1,
          p.1.length = 180000)) :=
  ⟨⟨by decide, by decide, by decide, by decide⟩,
   C1_shards_partition [0, 1, 2, 3, 4, 5] [10, 11, 12, 13, 14, 15] 3 "train"
     (by decide) (by decide) (by decide) (by decide)⟩

/-- C2, counterexample: the claim covers every k not dividing len(X), which
includes k = 0 for a nonempty dataset (0 divides only 0).  There the Python
expression n // k inside the assert raises a ZeroDivisionError — before the
assertion itself can fail — so the failure is not an assertion failure,
though it still precedes every write and upload. -/
theorem C2_counterexample :
    ¬ ((0 : Nat) ∣ ([3] : List Nat).length) ∧
    Part001.split_and_upload ([3] : List Nat) ([7] : List Nat) 0 "train" =
      ([], some PyError.zeroDivisionError) ∧
    some PyError.zeroDivisionError ≠ some PyError.assertionError :=
  ⟨by decide, rfl, by decide⟩

/-- C2 (amended: restricted to k ≥ 1; for k = 0 on a nonempty dataset the
same call fails with a division error instead, likewise before any effect):
for every k ≥ 1 that does not divide len(X), both notebook revisions of
`split_and_upload` stop with an uncaught assertion failure and an empty
effect trace — no local shard file is written and no upload is emitted. -/
theorem C2_assert_before_upload {α β : Type} (X : List α) (y : List β) (k : Nat)
    (f : String) (hk : 1 ≤ k) (hniv : ¬ (k ∣ X.length)) :
    Part001.split_and_upload X y k f = ([], some PyError.assertionError) ∧
    Part000.split_and_upload X y k f = ([], some PyError.assertionError) := by
  have hk0 : k ≠ 0 := by omega
  have hne : ¬ ((X.length / k) * k = X.length) := by
    intro he
    exact hniv (Dvd.intro (X.length / k) (by rw [Nat.mul_comm]; exact he))
  constructor
  · simp only [Part001.split_and_upload]
    rw [if_neg hk0, if_neg hne]
  · simp only [Part000.split_and_upload]
    rw [if_neg hk0, if_neg hne]

/-- C2, witness: the amended theorem instantiated on a three-row dataset and
shard count 2. -/
theorem C2_assert_before_upload_witness :
    (1 ≤ 2 ∧ ¬ ((2 : Nat) ∣ ([0, 1, 2] : List Nat).length)) ∧
    Part001.split_and_upload ([0, 1, 2] : List Nat) ([5, 6, 7] : List Nat) 2 "train" =
      ([], some PyError.assertionError) ∧
    Part000.split_and_upload ([0, 1, 2] : List Nat) ([5, 6, 7] : List Nat) 2 "train" =
      ([], some PyError.assertionError) :=
  ⟨⟨by decide, by decide⟩,
   C2_assert_before_upload [0, 1, 2] [5, 6, 7] 2 "train" (by decide) (by decide)⟩

/-- C3, counterexample: in the `part_000` revision the prefix already ends in
a slash and the format string inserts another one, so the key produced for
folder train and shard 0 contains a doubled separator and is not the
single-separator layout the claim states. -/
theorem C3_counterexample :
    uploadKeys (Part000.save_and_upload ([] : List Nat) ([] : List Nat) "train" 0) =
      ["distributed_training_gluon_lab//train/0"] ∧
    uploadKeys (Part000.save_and_upload ([] : List Nat) ([] : List Nat) "train" 0) ≠
      [specKey "train" 0] := by
  constructor
  · rfl
  · decide

/-- C3 (amended: the single-separator layout holds for the revised notebook
`part_001`; the `part_000` revision inserts an extra separator after the
prefix, which already ends in a slash, so its keys carry a doubled slash):
for every folder and shard index the revised `save_and_upload` uploads to
exactly the key prefix-body/folder/index with single separators, one object
per shard, while the `part_000` key is the same layout with the prefix
followed by a second slash. -/
theorem C3_key_layout {α β : Type} (X : List α) (y : List β) (f : String) (i : Nat) :
    uploadKeys (Part001.save_and_upload X y f i) = [specKey f i] ∧
    uploadKeys (Part000.save_and_upload X y f i) =
      ["distributed_training_gluon_lab/" ++ "/" ++ f ++ "/" ++ Nat.repr i] := by
  constructor
  · show [prefixStr ++ f ++ "/" ++ Nat.repr i] = [specKey f i]
    rw [show prefixStr = "distributed_training_gluon_lab" ++ "/" from by decide]
    rfl
  · rfl

/-- C4: the training entry point selects the distributed
gradient-synchronization mode exactly when more than one host identifier is
present, and the local single-device mode when exactly one host is present. -/
theorem C4_sync_mode_selection (hp : Hyperparameters)
    (cid : List (String × String)) (ng : Nat) (hosts : List String)
    (ch : String) (bl : List Rat) :
    (1 < hosts.length →
      (train hp cid ng hosts ch bl).kvstore = Kvstore.dist_device_sync ∧
      ((train hp cid ng hosts ch bl).kvstore).isDistributed = true) ∧
    (hosts.length = 1 →
      (train hp cid ng hosts ch bl).kvstore = Kvstore.device ∧
      ((train hp cid ng hosts ch bl).kvstore).isDistributed = false) := by
  refine ⟨fun h => ?_, fun h => ?_⟩
  · simp [train, kvstoreFor, h, Kvstore.isDistributed]
  · simp [train, kvstoreFor, h, Kvstore.isDistributed]

/-- C4, witness: the selection theorem instantiated on a two-host list and on
the single-host list of the notebook call. -/
theorem C4_sync_mode_selection_witness :
    (1 < (["alg-1", "alg-2"] : List String).length ∧
      (train ⟨64, 10, 1 / 10⟩ [("train", "./data")] 1 ["alg-1", "alg-2"] "alg-1" []).kvstore =
        Kvstore.dist_device_sync) ∧
    ((["alg-1"] : List String).length = 1 ∧
      (train ⟨64, 10, 1 / 10⟩ [("train", "./data")] 1 ["alg-1"] "alg-1" []).kvstore =
        Kvstore.device) :=
  ⟨⟨by decide, ((C4_sync_mode_selection _ _ _ _ _ _).1 (by decide)).1⟩,
   ⟨by decide, ((C4_sync_mode_selection _ _ _ _ _ _).2 (by decide)).1⟩⟩

/-- C5: with at least one batch available, a run of the training entry point
reports exactly one loss value per configured epoch, independent of the data
size. -/
theorem C5_losses_count (hp : Hyperparameters) (cid : List (String × String))
    (ng : Nat) (hosts : List String) (ch : String) (bl : List Rat)
    (hb : bl ≠ []) :
    (train hp cid ng hosts ch bl).epochLosses.length = hp.epochs := by
  simp [train]

/-- C5, witness: ten epochs over two batches report ten losses. -/
theorem C5_losses_count_witness :
    ([1, 2] : List Rat) ≠ [] ∧
    (train ⟨64, 10, 1 / 10⟩ [("train", "./data")] 1 ["alg-1"] "alg-1"
      [1, 2]).epochLosses.length = 10 :=
  ⟨by decide,
   C5_losses_count ⟨64, 10, 1 / 10⟩ [("train", "./data")] 1 ["alg-1"] "alg-1"
     [1, 2] (by decide)⟩

/-- C6, counterexample: within one invocation the local file name is the
decimal shard index, so the two shards of a two-shard run are written to two
different local paths, not to one shared filename. -/
theorem C6_counterexample :
    writePaths (Part001.split_and_upload ([0, 1] : List Nat) ([2, 3] : List Nat) 2 "train").1 =
      ["/tmp/0", "/tmp/1"] ∧
    ("/tmp/0" : String) ≠ "/tmp/1" := by
  refine ⟨rfl, by decide⟩

/-- C6 (amended: each shard i of one invocation is written to its own local
temporary file named by the shard index — path local_dir slash i — so paths
are distinct across the shards of one call; a path is only reused, and its
file overwritten, by a later invocation using the same index): the local
write paths of a successful run are exactly the per-index paths in shard
order. -/
theorem C6_per_shard_paths {α β : Type} (X : List α) (y : List β) (k : Nat)
    (f : String) (hk : 1 ≤ k) (hdvd : k ∣ X.length) (hn : 1 ≤ X.length) :
    writePaths (Part001.split_and_upload X y k f).1 =
      (List.range k).map (fun i => local_dir ++ "/" ++ Nat.repr i) := by
  have hk0 : k ≠ 0 := by omega
  have hn0 : X.length ≠ 0 := by omega
  have hdvd2 : (X.length / k) * k = X.length := Nat.div_mul_cancel hdvd
  rw [split_ok_Part001 X y k f hk0 hdvd2 hn0]
  dsimp only
  rw [writePaths_loop_Part001]

/-- C6, witness: the per-index path theorem instantiated on a four-row
dataset split into two shards. -/
theorem C6_per_shard_paths_witness :
    (1 ≤ 2 ∧ (2 : Nat) ∣ ([4, 5, 6, 7] : List Nat).length ∧
      1 ≤ ([4, 5, 6, 7] : List Nat).length) ∧
    writePaths (Part001.split_and_upload ([4, 5, 6, 7] : List Nat)
        ([8, 9, 10, 11] : List Nat) 2 "train").1 =
      (List.range 2).map (fun i => local_dir ++ "/" ++ Nat.repr i) :=
  ⟨⟨by decide, by decide, by decide⟩,
   C6_per_shard_paths [4, 5, 6, 7] [8, 9, 10, 11] 2 "train"
     (by decide) (by decide) (by decide)⟩

/-- C7: in a successful run of the revised `split_and_upload`, the serialized
artifact of shard i is exactly the two-entry dictionary mapping "X" to the
i-th X-slice and "y" to the i-th y-slice, and nothing else — one artifact per
shard, in shard order. -/
theorem C7_artifact_contents {α β : Type} (X : List α) (y : List β) (k : Nat)
    (f : String) (hk : 1 ≤ k) (hdvd : k ∣ X.length) (hn : 1 ≤ X.length) :
    writeDicts (Part001.split_and_upload X y k f).1 =
      (List.range k).map (fun i =>
        [("X", NDSaved.feat (pySlice X (i * (X.length / k)) ((i + 1) * (X.length / k)))),
         ("y", NDSaved.lab (pySlice y (i * (X.length / k)) ((i + 1) * (X.length / k))))]) := by
  have hk0 : k ≠ 0 := by omega
  have hn0 : X.length ≠ 0 := by omega
  have hdvd2 : (X.length / k) * k = X.length := Nat.div_mul_cancel hdvd
  rw [split_ok_Part001 X y k f hk0 hdvd2 hn0]
  dsimp only
  rw [writeDicts_loop_Part001]

/-- C7, witness: the artifact-contents theorem instantiated on a two-row
dataset kept as a single shard. -/
theorem C7_artifact_contents_witness :
    (1 ≤ 1 ∧ (1 : Nat) ∣ ([21, 22] : List Nat).length ∧
      1 ≤ ([21, 22] : List Nat).length) ∧
    writeDicts (Part001.split_and_upload ([21, 22] : List Nat)
        ([31, 32] : List Nat) 1 "train").1 =
      (List.range 1).map (fun i =>
        [("X", NDSaved.feat (pySlice ([21, 22] : List Nat)
            (i * (([21, 22] : List Nat).length / 1))
            ((i + 1) * (([21, 22] : List Nat).length / 1)))),
         ("y", NDSaved.lab (pySlice ([31, 32] : List Nat)
            (i * (([21, 22] : List Nat).length / 1))
            ((i + 1) * (([21, 22] : List Nat).length / 1))))]) :=
  ⟨⟨by decide, by decide, by decide⟩,
   C7_artifact_contents [21, 22] [31, 32] 1 "train"
     (by decide) (by decide) (by decide)⟩

/-- One `save_and_upload` call of the revised notebook is exactly the
two-effect block: the local write followed by the upload. -/
theorem save_block_Part001 {α β : Type} (X : List α) (y : List β)
    (f : String) (i : Nat) :
    Part001.save_and_upload X y f i =
      [Effect.writeLocal (local_dir ++ "/" ++ Nat.repr i)
         [("X", NDSaved.feat X), ("y", NDSaved.lab y)],
       Effect.uploadFile (local_dir ++ "/" ++ Nat.repr i) bucket_name
         (prefixStr ++ f ++ "/" ++ Nat.repr i)] := rfl

/-- C8: in every successful run of the revised `split_and_upload` the effect
trace is strictly sequential and ordered by shard index — it has length 2·k,
the local write of shard i is the effect at position 2·i and the upload of
shard i is the effect at position 2·i + 1, so each write precedes its upload
and each upload precedes the next write; in particular no two transfers
overlap and shard i+1 is never uploaded before shard i. -/
theorem C8_effect_order {α β : Type} (X : List α) (y : List β) (k : Nat)
    (f : String) (hk : 1 ≤ k) (hdvd : k ∣ X.length) (hn : 1 ≤ X.length) :
    (Part001.split_and_upload X y k f).2 = none ∧
    (Part001.split_and_upload X y k f).1.length = 2 * k ∧
    ∀ i, i < k →
      (Part001.split_and_upload X y k f).1[2 * i]? =
        some (Effect.writeLocal (local_dir ++ "/" ++ Nat.repr i)
          [("X", NDSaved.feat (pySlice X (i * (X.length / k)) ((i + 1) * (X.length / k)))),
           ("y", NDSaved.lab (pySlice y (i * (X.length / k)) ((i + 1) * (X.length / k))))]) ∧
      (Part001.split_and_upload X y k f).1[2 * i + 1]? =
        some (Effect.uploadFile (local_dir ++ "/" ++ Nat.repr i) bucket_name
          (prefixStr ++ f ++ "/" ++ Nat.repr i)) := by
  have hk0 : k ≠ 0 := by omega
  have hn0 : X.length ≠ 0 := by omega
  have hdvd2 : (X.length / k) * k = X.length := Nat.div_mul_cancel hdvd
  rw [split_ok_Part001 X y k f hk0 hdvd2 hn0]
  dsimp only
  simp only [save_block_Part001]
  refine ⟨trivial, ?_, ?_⟩
  · rw [flatMap_pairs_length, List.length_range]
  · intro i hi
    exact ⟨(flatMap_pairs_getElem _ _ k i hi).1, (flatMap_pairs_getElem _ _ k i hi).2⟩

/-- C8, witness: the effect-order theorem instantiated on a four-row dataset
split into two shards uploaded to the test folder. -/
theorem C8_effect_order_witness :
    (1 ≤ 2 ∧ (2 : Nat) ∣ ([40, 41, 42, 43] : List Nat).length ∧
      1 ≤ ([40, 41, 42, 43] : List Nat).length) ∧
    ((Part001.split_and_upload ([40, 41, 42, 43] : List Nat)
        ([50, 51, 52, 53] : List Nat) 2 "test").2 = none ∧
     (Part001.split_and_upload ([40, 41, 42, 43] : List Nat)
        ([50, 51, 52, 53] : List Nat) 2 "test").1.length = 2 * 2 ∧
     ∀ i, i < 2 →
       (Part001.split_and_upload ([40, 41, 42, 43] : List Nat)
          ([50, 51, 52, 53] : List Nat) 2 "test").1[2 * i]? =
         some (Effect.writeLocal (local_dir ++ "/" ++ Nat.repr i)
           [("X", NDSaved.feat (pySlice ([40, 41, 42, 43] : List Nat)
              (i * (([40, 41, 42, 43] : List Nat).length / 2))
              ((i + 1) * (([40, 41, 42, 43] : List Nat).length / 2)))),
            ("y", NDSaved.lab (pySlice ([50, 51, 52, 53] : List Nat)
              (i * (([40, 41, 42, 43] : List Nat).length / 2))
              ((i + 1) * (([40, 41, 42, 43] : List Nat).length / 2))))]) ∧
       (Part001.split_and_upload ([40, 41, 42, 43] : List Nat)
          ([50, 51, 52, 53] : List Nat) 2 "test").1[2 * i + 1]? =
         some (Effect.uploadFile (local_dir ++ "/" ++ Nat.repr i) bucket_name
           (prefixStr ++ "test" ++ "/" ++ Nat.repr i))) :=
  ⟨⟨by decide, by decide, by decide⟩,
   C8_effect_order [40, 41, 42, 43] [50, 51, 52, 53] 2 "test"
     (by decide) (by decide) (by decide)⟩

/-- Prepending the same element preserves an equality of filterMap images. -/
theorem filterMap_congr_tail {γ δ : Type} (f : γ → Option δ) (a : γ)
    (l₁ l₂ : List γ) (h : List.filterMap f l₁ = List.filterMap f l₂) :
    List.filterMap f (a :: l₁) = List.filterMap f (a :: l₂) := by
  rw [List.filterMap_cons, List.filterMap_cons, h]

/-- Erasing upload keys does not change the shard pairs a trace records. -/
theorem emittedShards_eraseKeys {α β : Type} : ∀ t : List (Effect α β),
    emittedShards (eraseKeys t) = emittedShards t
  | [] => rfl
  | Effect.writeLocal p d :: t =>
    filterMap_congr_tail _ (Effect.writeLocal p d) (eraseKeys t) t
      (emittedShards_eraseKeys t)
  | Effect.uploadFile lp b key :: t => by
    show emittedShards (Effect.uploadFile lp b "" :: eraseKeys t) =
      emittedShards (Effect.uploadFile lp b key :: t)
    have h := emittedShards_eraseKeys t
    unfold emittedShards at h ⊢
    rw [List.filterMap_cons, List.filterMap_cons, h]

/-- Erasing upload keys does not change the local write paths of a trace. -/
theorem writePaths_eraseKeys {α β : Type} : ∀ t : List (Effect α β),
    writePaths (eraseKeys t) = writePaths t
  | [] => rfl
  | Effect.writeLocal p d :: t =>
    filterMap_congr_tail _ (Effect.writeLocal p d) (eraseKeys t) t
      (writePaths_eraseKeys t)
  | Effect.uploadFile lp b key :: t => by
    show writePaths (Effect.uploadFile lp b "" :: eraseKeys t) =
      writePaths (Effect.uploadFile lp b key :: t)
    have h := writePaths_eraseKeys t
    unfold writePaths at h ⊢
    rw [List.filterMap_cons, List.filterMap_cons, h]

/-- Erasing upload keys does not change the artifact dictionaries of a
trace. -/
theorem writeDicts_eraseKeys {α β : Type} : ∀ t : List (Effect α β),
    writeDicts (eraseKeys t) = writeDicts t
  | [] => rfl
  | Effect.writeLocal p d :: t =>
    filterMap_congr_tail _ (Effect.writeLocal p d) (eraseKeys t) t
      (writeDicts_eraseKeys t)
  | Effect.uploadFile lp b key :: t => by
    show writeDicts (Effect.uploadFile lp b "" :: eraseKeys t) =
      writeDicts (Effect.uploadFile lp b key :: t)
    have h := writeDicts_eraseKeys t
    unfold writeDicts at h ⊢
    rw [List.filterMap_cons, List.filterMap_cons, h]

/-- C9: on every input the two notebook revisions of `split_and_upload` have
the same error behaviour, record the same shard pairs, the same local write
paths and the same artifact dictionaries, and their full effect traces are
identical once the remote destination keys are erased — so they compute
identical partitions and differ at most in the remote key each shard is
uploaded to. -/
theorem C9_revisions_agree {α β : Type} (X : List α) (y : List β) (k : Nat)
    (f : String) :
    eraseKeys (Part000.split_and_upload X y k f).1 =
      eraseKeys (Part001.split_and_upload X y k f).1 ∧
    (Part000.split_and_upload X y k f).2 = (Part001.split_and_upload X y k f).2 ∧
    emittedShards (Part000.split_and_upload X y k f).1 =
      emittedShards (Part001.split_and_upload X y k f).1 ∧
    writePaths (Part000.split_and_upload X y k f).1 =
      writePaths (Part001.split_and_upload X y k f).1 ∧
    writeDicts (Part000.split_and_upload X y k f).1 =
      writeDicts (Part001.split_and_upload X y k f).1 := by
  obtain ⟨h1, h2⟩ := parts_agree X y k f
  refine ⟨h1, h2, ?_, ?_, ?_⟩
  · rw [← emittedShards_eraseKeys (Part000.split_and_upload X y k f).1, h1,
      emittedShards_eraseKeys]
  · rw [← writePaths_eraseKeys (Part000.split_and_upload X y k f).1, h1,
      writePaths_eraseKeys]
  · rw [← writeDicts_eraseKeys (Part000.split_and_upload X y k f).1, h1,
      writeDicts_eraseKeys]

/-- C10, counterexample: the preconditions k ≥ 1 and k dividing len(X) admit
the empty dataset, where the step n // k is zero, so the boundary-list
construction itself fails — the idx list is never produced, let alone with
k + 1 elements. -/
theorem C10_counterexample :
    (1 : Nat) ≤ 2 ∧ (2 : Nat) ∣ ([] : List Nat).length ∧
    rangeStep 0 (([] : List Nat).length + 1) (([] : List Nat).length / 2) = none ∧
    Part001.split_and_upload ([] : List Nat) ([] : List Nat) 2 "train" =
      ([], some PyError.valueError) :=
  ⟨by decide, by decide, rfl, rfl⟩

/-- C10 (amended: the dataset must also be nonempty): for k ≥ 1 dividing
n = len(X) ≥ 1, the boundary list idx built by range over 0, n + 1 and step
n / k exists and has exactly k + 1 elements, so every access at positions i
and i + 1 for i below k is in bounds and the slicing loop cannot fail with an
out-of-range access. -/
theorem C10_idx_bounds (n k : Nat) (hk : 1 ≤ k) (hdvd : k ∣ n) (hn : 1 ≤ n) :
    ∃ idx, rangeStep 0 (n + 1) (n / k) = some idx ∧
      idx.length = k + 1 ∧
      ∀ i, i < k → i < idx.length ∧ i + 1 < idx.length := by
  have hdvd2 : (n / k) * k = n := Nat.div_mul_cancel hdvd
  refine ⟨(List.range (k + 1)).map (fun i => i * (n / k)),
    split_idx_eq n k hdvd2 (by omega), ?_, ?_⟩
  · rw [List.length_map, List.length_range]
  · intro i hi
    rw [List.length_map, List.length_range]
    omega

/-- C10, witness: the boundary-list theorem instantiated at n = 6 and k = 3. -/
theorem C10_idx_bounds_witness :
    (1 ≤ 3 ∧ (3 : Nat) ∣ 6 ∧ 1 ≤ 6) ∧
    ∃ idx, rangeStep 0 (6 + 1) (6 / 3) = some idx ∧ idx.length = 3 + 1 ∧
      ∀ i, i < 3 → i < idx.length ∧ i + 1 < idx.length :=
  ⟨⟨by decide, by decide, by decide⟩,
   C10_idx_bounds 6 3 (by decide) (by decide) (by decide)⟩
